import Mathlib

/-!
Verification of the renewal-reminder scheduling and delivery pipeline of the
Renewal_reminder repository, as a shallow embedding in Lean 4.

The embedding covers:
* the data model (`Policy`, `Customer`, `Reminder`, `OutreachEntry`) from
  `backend/app/models/__init__.py`;
* the reminder scheduler `check_and_create_reminders` from
  `backend/app/scheduler.py` (the Celery variant in
  `backend/app/tasks/reminder_tasks.py` is the same algorithm);
* the dispatcher `send_pending_reminders` from `backend/app/scheduler.py`;
* the lifecycle updater `update_policy_statuses`;
* the engagement scorer `calculate_engagement_scores`;
* the retention job `process_retention_outreach` from
  `backend/app/tasks/communication_tasks.py`;
* the channel gateway `CommunicationGateway.send_reminder` from
  `backend/app/services/communication.py`.

Dates (`renewal_date`, `today`) and datetimes (`scheduled_date`, `sent_at`,
`now`) are modelled as `Int` values measured in days; fallible code returns
`Except`; the external channel providers are oracles passed in as functions.
-/

namespace RenewalReminder

/-- `PolicyStatus` enumeration from `models/__init__.py`. -/
inductive PolicyStatus where
  | active
  | pending_renewal
  | renewed
  | lapsed
  | cancelled
deriving DecidableEq, Repr

/-- `ReminderStatus` enumeration from `models/__init__.py`. -/
inductive ReminderStatus where
  | pending
  | sent
  | delivered
  | failed
  | cancelled
deriving DecidableEq, Repr

/-- `ReminderChannel` enumeration from `models/__init__.py`. -/
inductive ReminderChannel where
  | email
  | sms
  | whatsapp
deriving DecidableEq, Repr

/-- `OutreachType` enumeration from `models/__init__.py`. -/
inductive OutreachType where
  | reminder
  | follow_up
  | retention
  | confirmation
deriving DecidableEq, Repr

/-- The fields of `Customer` the scheduling core reads. -/
structure Customer where
  id : Nat
  preferred_channel : ReminderChannel
deriving DecidableEq, Repr

/-- A `Policy` row joined with its customer (the jobs always load policies
with `selectinload(Policy.customer)`). `renewal_date` is a date in days. -/
structure Policy where
  id : Nat
  customer : Customer
  renewal_date : Int
  status : PolicyStatus
deriving DecidableEq, Repr

/-- A `RenewalReminder` row. `scheduled_date` and `sent_at` are datetimes in
days; `reminder_type` is the lead-time window in days. -/
structure Reminder where
  policy_id : Nat
  reminder_type : Nat
  channel : ReminderChannel
  scheduled_date : Int
  sent_at : Option Int
  external_id : Option String
  error_message : Option String
  status : ReminderStatus
  retry_count : Nat
deriving DecidableEq, Repr

/-- The fields of an `OutreachLog` row read and written by
`process_retention_outreach`. -/
structure OutreachEntry where
  customer_id : Nat
  policy_id : Nat
  outreach_type : OutreachType
  sent_at : Int
deriving DecidableEq, Repr

/-- The portion of the store the scheduler touches. -/
structure DB where
  policies : List Policy
  reminders : List Reminder
deriving DecidableEq, Repr

/-! ## Engagement scorer (`calculate_engagement_scores`)

`scheduler.py` lines 329-369: per customer, start from a base of `50.0`, add
`min(interaction_count * 2, 20)`, add `min(renewal_count * 5, 15)`, then add
`15` when `lapsed_count == 0` and otherwise subtract `min(lapsed_count * 10,
30)`, and finally store `max(0, min(100, score))`. All quantities involved
are integral, so `Int` models the Python float arithmetic exactly. -/

/-- The score accumulated before the final clamp, as built up in the loop
body of `calculate_engagement_scores`. -/
def engagementScoreRaw (interaction_count renewal_count lapsed_count : Nat) : Int :=
  let score : Int := 50
  let score := score + min ((interaction_count : Int) * 2) 20
  let score := score + min ((renewal_count : Int) * 5) 15
  let score :=
    if lapsed_count = 0 then score + 15
    else score - min ((lapsed_count : Int) * 10) 30
  score

/-- The stored `engagement_score`: `max(0, min(100, score))`. -/
def engagementScore (interaction_count renewal_count lapsed_count : Nat) : Int :=
  max 0 (min 100 (engagementScoreRaw interaction_count renewal_count lapsed_count))

/-- The scoring formula as §4.5 of the spec words it: base 50, plus up to 20
for recent interactions (2 points each, capped), plus up to 15 for renewed
policies (5 points each, capped), plus a 15 bonus for zero lapsed policies
and otherwise a penalty of 10 per lapsed policy capped at 30, clamped to
[0, 100]. -/
def engagementScoreSpec (i r l : Nat) : Int :=
  max 0 (min 100 (50 + min (2 * (i : Int)) 20 + min (5 * (r : Int)) 15 +
    (if l = 0 then 15 else -(min (10 * (l : Int)) 30))))

/-! ## Reminder scheduler (`check_and_create_reminders`)

`scheduler.py` lines 79-144: for each configured window `days`, select the
active policies whose `renewal_date` equals `today + days`; for each such
policy, skip it when a reminder with the same `(policy_id, reminder_type)`
already exists, otherwise add a new pending reminder whose channel is the
customer's preferred channel and whose `scheduled_date` is `now`.  The
session flushes pending adds before each query (SQLAlchemy autoflush), so
the existence check sees reminders added earlier in the same run. -/

/-- The existence check `select(RenewalReminder).where(policy_id == ... and
reminder_type == days)` returning a row or not. -/
def reminderExists (rs : List Reminder) (pid : Nat) (days : Nat) : Bool :=
  rs.any fun r => r.policy_id == pid && r.reminder_type == days

/-- The `WHERE` clause of the per-window policy query:
`renewal_date == today + days AND status == ACTIVE`. -/
def policyMatchesWindow (today : Int) (days : Nat) (p : Policy) : Bool :=
  p.renewal_date == today + (days : Int) && p.status == .active

/-- The freshly constructed `RenewalReminder(...)` of the scheduler. -/
def mkReminder (p : Policy) (days : Nat) (now : Int) : Reminder :=
  { policy_id := p.id
    reminder_type := days
    channel := p.customer.preferred_channel
    scheduled_date := now
    sent_at := none
    external_id := none
    error_message := none
    status := .pending
    retry_count := 0 }

/-- One iteration of the inner `for policy in policies` loop, acting on the
accumulated reminder table and created-count. -/
def scheduleStep (now : Int) (days : Nat) (acc : List Reminder × Nat)
    (p : Policy) : List Reminder × Nat :=
  if reminderExists acc.1 p.id days then acc
  else (acc.1 ++ [mkReminder p days now], acc.2 + 1)

/-- The inner loop over the policies selected for one window. -/
def createForPolicies (now : Int) (days : Nat) :
    List Policy → List Reminder × Nat → List Reminder × Nat
  | [], acc => acc
  | p :: ps, acc => createForPolicies now days ps (scheduleStep now days acc p)

/-- The outer loop `for days in reminder_windows`. -/
def createForWindows (today now : Int) (policies : List Policy) :
    List Nat → List Reminder × Nat → List Reminder × Nat
  | [], acc => acc
  | d :: ds, acc =>
      createForWindows today now policies ds
        (createForPolicies now d (policies.filter (policyMatchesWindow today d)) acc)

/-- `check_and_create_reminders`, committing the accumulated reminder table
and reporting `reminders_created`. -/
def check_and_create_reminders (windows : List Nat) (today now : Int)
    (db : DB) : DB × Nat :=
  let acc := createForWindows today now db.policies windows (db.reminders, 0)
  ({ db with reminders := acc.1 }, acc.2)

/-- The windows of `windows` that select policy `p` in one run (the spec's
notion of "`p` is selected by window `w`"). -/
def selectedWindows (windows : List Nat) (today : Int) (p : Policy) : List Nat :=
  windows.filter fun d => policyMatchesWindow today d p

/-- Number of reminder rows carrying a given `(policy_id, reminder_type)`
pair. -/
def pairCount (rs : List Reminder) (pid d : Nat) : Nat :=
  rs.countP fun r => r.policy_id == pid && r.reminder_type == d

/-- The invariant "at most one reminder per `(policy, reminder_type)`
pair". -/
def atMostOnePerPair (rs : List Reminder) : Prop :=
  ∀ pid d, pairCount rs pid d ≤ 1

/-! ## Reminder dispatcher (`send_pending_reminders`)

`scheduler.py` lines 147-238: select up to 100 reminders with
`status == PENDING AND scheduled_date <= now` (the query has no `ORDER BY`,
so the store's own row order — here the list order — is used), send each
through the gateway, and update it in place according to the outcome; the
whole batch is committed at the end, and any exception raised while
processing a reminder aborts the run and rolls the session back. -/

/-- The uniform outcome dict produced by the channel services: a `status`
string plus the optional keys the dispatcher reads. -/
structure Outcome where
  status : String
  message_id : Option String
  message_sid : Option String
  error : Option String
deriving DecidableEq, Repr

/-- The dispatcher's selection predicate
`status == PENDING AND scheduled_date <= utcnow()`. -/
def isDue (now : Int) (r : Reminder) : Bool :=
  r.status == .pending && decide (r.scheduled_date ≤ now)

/-- The reminders one dispatcher run selects, in processing order: the due
pending rows in store order, capped by `.limit(100)`. -/
def selectedReminders (now : Int) (rs : List Reminder) : List Reminder :=
  ((rs.filter (isDue now)).take 100)

/-- Outcome handling for one reminder (`scheduler.py` lines 207-226): `sent`
stores `sent_at` and the provider id; `skipped` is treated as sent;
anything else marks the reminder failed, records the error, increments
`retry_count`, and reverts to pending while `retry_count < 3`. -/
def applyOutcome (now : Int) (r : Reminder) (o : Outcome) : Reminder :=
  if o.status == "sent" then
    { r with status := .sent, sent_at := some now,
             external_id := o.message_id.orElse fun _ => o.message_sid }
  else if o.status == "skipped" then
    { r with status := .sent, sent_at := some now }
  else
    let r1 : Reminder :=
      { r with status := .failed,
               error_message := some (o.error.getD "Unknown error"),
               retry_count := r.retry_count + 1 }
    if r1.retry_count < 3 then { r1 with status := .pending } else r1

/-- `sent_count` is incremented for `sent` and `skipped` outcomes,
`failed_count` otherwise. -/
def isSuccess (o : Outcome) : Bool :=
  o.status == "sent" || o.status == "skipped"

/-- The `for reminder in reminders` loop: each send may raise (modelled by
`Except`); an exception propagates out of the loop.  On success it returns
the updated reminders in order together with the `(sent, failed)` counts. -/
def processSelected (now : Int) (send : Reminder → Except String Outcome) :
    List Reminder → Except String (List Reminder × Nat × Nat)
  | [] => .ok ([], 0, 0)
  | r :: rest => do
      let o ← send r
      let tail ← processSelected now send rest
      .ok (applyOutcome now r o :: tail.1,
           if isSuccess o then tail.2.1 + 1 else tail.2.1,
           if isSuccess o then tail.2.2 else tail.2.2 + 1)

/-- Committing the batch: the selected rows (the first `limit` due rows in
store order) are replaced by their updated versions, every other row is kept
as is. -/
def commitUpdates (now : Int) : List Reminder → List Reminder → List Reminder
  | [], _ => []
  | r :: rest, upds =>
      if isDue now r then
        match upds with
        | [] => r :: commitUpdates now rest []
        | u :: us => u :: commitUpdates now rest us
      else r :: commitUpdates now rest upds

/-- `send_pending_reminders`: select, process, and either commit the batch
(returning the new table and the `(sent, failed)` counts) or — when an
exception escaped the loop — roll back, leaving the table unchanged. -/
def send_pending_reminders (now : Int) (send : Reminder → Except String Outcome)
    (rs : List Reminder) : List Reminder × Nat × Nat :=
  match processSelected now send (selectedReminders now rs) with
  | .error _ => (rs, 0, 0)
  | .ok (upds, s, f) => (commitUpdates now rs upds, s, f)

/-! ## Policy lifecycle updater (`update_policy_statuses`)

`scheduler.py` lines 241-307: first pass sets `status = PENDING_RENEWAL` on
policies with `status == ACTIVE AND today <= renewal_date <= today + 30`;
second pass sets `status = LAPSED` on policies with `status in (ACTIVE,
PENDING_RENEWAL) AND renewal_date < today`.  The second query runs after the
first pass's in-session mutations, so per policy the two passes compose. -/

/-- The composed effect of the two passes on a single policy row. -/
def updatePolicyStatus (today : Int) (p : Policy) : Policy :=
  let p1 :=
    if p.status == .active && decide (p.renewal_date ≤ today + 30) &&
        decide (today ≤ p.renewal_date)
    then { p with status := .pending_renewal } else p
  if (p1.status == .active || p1.status == .pending_renewal) &&
      decide (p1.renewal_date < today)
  then { p1 with status := .lapsed } else p1

/-- `update_policy_statuses` over the whole policy table. -/
def update_policy_statuses (today : Int) (ps : List Policy) : List Policy :=
  ps.map (updatePolicyStatus today)

/-! ## Retention outreach (`process_retention_outreach`)

`communication_tasks.py` lines 162-273: select policies with
`status == PENDING_RENEWAL AND today <= renewal_date <= today + 7`; for each,
count retention-type `OutreachLog` rows for the same `(customer, policy)`
with `sent_at >= now - 3 days`; skip when the count is positive, otherwise
send through the gateway on the customer's preferred channel and append a
retention log row stamped `now` regardless of the send outcome, counting the
policy as contacted only for `sent`/`skipped` outcomes. -/

/-- The retention job's policy selection predicate. -/
def retentionEligible (today : Int) (p : Policy) : Bool :=
  p.status == .pending_renewal && decide (p.renewal_date ≤ today + 7) &&
    decide (today ≤ p.renewal_date)

/-- The cool-down check: is there any retention-type log row for this
`(customer, policy)` with `sent_at >= now - 3`? -/
def hasRecentRetention (now : Int) (logs : List OutreachEntry)
    (cid pid : Nat) : Bool :=
  logs.any fun l =>
    l.customer_id == cid && l.policy_id == pid &&
      l.outreach_type == .retention && decide (now - 3 ≤ l.sent_at)

/-- The retention log row appended for a contacted policy. -/
def mkRetentionLog (p : Policy) (now : Int) : OutreachEntry :=
  { customer_id := p.customer.id
    policy_id := p.id
    outreach_type := .retention
    sent_at := now }

/-- The `for policy in policies` loop of the retention job.  The in-session
cool-down query sees log rows added earlier in the same run (autoflush). -/
def retentionLoop (now : Int) (send : Policy → Outcome) :
    List Policy → List OutreachEntry × Nat → List OutreachEntry × Nat
  | [], acc => acc
  | p :: ps, acc =>
      if hasRecentRetention now acc.1 p.customer.id p.id then
        retentionLoop now send ps acc
      else
        retentionLoop now send ps
          (acc.1 ++ [mkRetentionLog p now],
           if isSuccess (send p) then acc.2 + 1 else acc.2)

/-- `process_retention_outreach`: run the loop over the eligible policies,
returning the outreach log table and `outreach_sent`. -/
def process_retention_outreach (today now : Int) (send : Policy → Outcome)
    (policies : List Policy) (logs : List OutreachEntry) :
    List OutreachEntry × Nat :=
  retentionLoop now send (policies.filter (retentionEligible today)) (logs, 0)

/-! ## Channel gateway (`CommunicationGateway.send_reminder`)

`communication.py` lines 348-400: dispatch on the `channel` string;
`"email"` reads `customer_data["email"]` (a `KeyError` when absent) and
invokes the email service, `"sms"` and `"whatsapp"` read
`customer_data["phone"]` and invoke the respective service; any other
channel returns `{"status": "failed", "error": f"Unknown channel: ..."}`
without touching any service.  The provider services are modelled as one
oracle keyed by the channel name, and the value records which services were
invoked. -/

/-- The `customer_data` dict: `name` is read with `.get` (safe), `email`
and `phone` with `[...]` (raising when absent), so they are `Option`s. -/
structure CustomerData where
  name : Option String
  email : Option String
  phone : Option String
deriving DecidableEq, Repr

/-- The `policy_data` dict built by the dispatcher; all four keys are always
set by the callers, so the fields are total. -/
structure PolicyData where
  policy_number : String
  renewal_date : String
  renewal_amount : Int
  days_until_renewal : Int
deriving DecidableEq, Repr

/-- `CommunicationGateway.send_reminder`, returning the outcome together
with the list of provider services invoked, or an exception for a missing
dict key. -/
def gateway_send_reminder (invoke : String → Outcome) (channel : String)
    (cd : CustomerData) (_pd : PolicyData) : Except String (Outcome × List String) :=
  if channel == "email" then
    match cd.email with
    | none => .error "KeyError: email"
    | some _ => .ok (invoke "email", ["email"])
  else if channel == "sms" then
    match cd.phone with
    | none => .error "KeyError: phone"
    | some _ => .ok (invoke "sms", ["sms"])
  else if channel == "whatsapp" then
    match cd.phone with
    | none => .error "KeyError: phone"
    | some _ => .ok (invoke "whatsapp", ["whatsapp"])
  else
    .ok ({ status := "failed", message_id := none, message_sid := none,
           error := some ("Unknown channel: " ++ channel) }, [])

/-! ## Concrete fixtures used by counterexamples and witnesses -/

/-- A pending reminder row that has been due since time 10. -/
def rSched10 : Reminder :=
  { policy_id := 1, reminder_type := 7, channel := .email, scheduled_date := 10,
    sent_at := none, external_id := none, error_message := none,
    status := .pending, retry_count := 0 }

/-- A pending reminder row due since time 5, stored after `rSched10`. -/
def rSched5 : Reminder := { rSched10 with policy_id := 2, scheduled_date := 5 }

/-- A provider `sent` outcome carrying a message id. -/
def okOutcome : Outcome :=
  { status := "sent", message_id := some "abc", message_sid := none, error := none }

/-- A provider `failed` outcome, as after a timeout. -/
def failOutcome : Outcome :=
  { status := "failed", message_id := none, message_sid := none,
    error := some "timeout" }

/-- A send oracle that raises an exception on policy 1's reminder and
succeeds on every other reminder. -/
def cexSend : Reminder → Except String Outcome := fun r =>
  if r.policy_id == 1 then .error "boom" else .ok okOutcome

/-- A reminder row that has exhausted its retries. -/
def rFailedRow : Reminder :=
  { rSched10 with
    policy_id := 4
    scheduled_date := 0
    status := .failed
    retry_count := 3 }

/-- A fresh pending reminder with `retry_count = 0`. -/
def rRetry0 : Reminder := { rSched10 with policy_id := 3, scheduled_date := 0 }

/-- A customer fixture. -/
def custW : Customer := { id := 1, preferred_channel := .email }

/-- An active policy renewing at day 30, owned by `custW`. -/
def polW : Policy := { id := 1, customer := custW, renewal_date := 30, status := .active }

/-- An already-existing reminder for `(polW, 30)`. -/
def remW : Reminder :=
  { policy_id := 1, reminder_type := 30, channel := .email, scheduled_date := 0,
    sent_at := none, external_id := none, error_message := none,
    status := .pending, retry_count := 0 }

/-- A store holding `polW` and its existing window-30 reminder. -/
def dbW : DB := { policies := [polW], reminders := [remW] }

/-- An active policy with `renewal_date = today + 29` for `today = 100`. -/
def p29W : Policy := { id := 2, customer := custW, renewal_date := 129, status := .active }

/-- An active policy with `renewal_date = today + 30` for `today = 100`. -/
def p30W : Policy := { id := 3, customer := custW, renewal_date := 130, status := .active }

/-- A pending-renewal policy renewing at day 103 (within 7 days of day 100). -/
def pRetention : Policy :=
  { id := 5, customer := { id := 7, preferred_channel := .sms },
    renewal_date := 103, status := .pending_renewal }

/-- A retention log entry for `pRetention` sent 1 day before time 200. -/
def logRecent : OutreachEntry :=
  { customer_id := 7, policy_id := 5, outreach_type := .retention, sent_at := 199 }

/-- A retention log entry for `pRetention` sent 4 days before time 200. -/
def logOld : OutreachEntry := { logRecent with sent_at := 196 }

/-- A fully populated `customer_data` dict. -/
def cdW : CustomerData :=
  { name := some "Asha", email := some "asha@example.com", phone := some "5550100" }

/-- A fully populated `policy_data` dict. -/
def pdW : PolicyData :=
  { policy_number := "POL-1", renewal_date := "2026-11-11",
    renewal_amount := 103, days_until_renewal := 7 }

/-! ## Supporting lemmas

General lemmas about the embedded jobs, shared by the claim theorems
below. -/

/-- `reminderExists` distributes over list append. -/
theorem reminderExists_append (xs ys : List Reminder) (pid d : Nat) :
    reminderExists (xs ++ ys) pid d =
      (reminderExists xs pid d || reminderExists ys pid d) := by
  simp [reminderExists, List.any_append]

/-- The inner scheduler loop only appends to the reminder table. -/
theorem createForPolicies_append (now : Int) (d : Nat) :
    ∀ (l : List Policy) (acc : List Reminder × Nat),
      ∃ ext, (createForPolicies now d l acc).1 = acc.1 ++ ext := by
  intro l
  induction l with
  | nil => intro acc; exact ⟨[], by simp [createForPolicies]⟩
  | cons p ps ih =>
    intro acc
    unfold createForPolicies scheduleStep
    split_ifs with h
    · exact ih acc
    · obtain ⟨ext, hext⟩ := ih (acc.1 ++ [mkReminder p d now], acc.2 + 1)
      exact ⟨[mkReminder p d now] ++ ext, by simp at hext ⊢; simp [hext]⟩

/-- An existing `(policy, window)` pair survives the inner loop. -/
theorem reminderExists_mono_policies (now : Int) (d : Nat)
    (l : List Policy) (acc : List Reminder × Nat) (pid e : Nat)
    (h : reminderExists acc.1 pid e = true) :
    reminderExists (createForPolicies now d l acc).1 pid e = true := by
  obtain ⟨ext, hext⟩ := createForPolicies_append now d l acc
  rw [hext, reminderExists_append, h, Bool.true_or]

/-- The outer scheduler loop only appends to the reminder table. -/
theorem createForWindows_append (today now : Int) (ps : List Policy) :
    ∀ (ws : List Nat) (acc : List Reminder × Nat),
      ∃ ext, (createForWindows today now ps ws acc).1 = acc.1 ++ ext := by
  intro ws
  induction ws with
  | nil => intro acc; exact ⟨[], by simp [createForWindows]⟩
  | cons w wsr ih =>
    intro acc
    unfold createForWindows
    obtain ⟨e1, he1⟩ :=
      createForPolicies_append now w (ps.filter (policyMatchesWindow today w)) acc
    obtain ⟨e2, he2⟩ :=
      ih (createForPolicies now w (ps.filter (policyMatchesWindow today w)) acc)
    exact ⟨e1 ++ e2, by rw [he2, he1, List.append_assoc]⟩

/-- An existing `(policy, window)` pair survives the outer loop. -/
theorem reminderExists_mono_windows (today now : Int) (ps : List Policy)
    (ws : List Nat) (acc : List Reminder × Nat) (pid e : Nat)
    (h : reminderExists acc.1 pid e = true) :
    reminderExists (createForWindows today now ps ws acc).1 pid e = true := by
  obtain ⟨ext, hext⟩ := createForWindows_append today now ps ws acc
  rw [hext, reminderExists_append, h, Bool.true_or]

/-- After the inner loop, every processed policy has a reminder for the
window being processed. -/
theorem createForPolicies_covers (now : Int) (d : Nat) :
    ∀ (l : List Policy) (acc : List Reminder × Nat) (p : Policy), p ∈ l →
      reminderExists (createForPolicies now d l acc).1 p.id d = true := by
  intro l
  induction l with
  | nil => intro acc p h; simp at h
  | cons q qs ih =>
    intro acc p hmem
    rcases List.mem_cons.mp hmem with rfl | hmem2
    · unfold createForPolicies
      apply reminderExists_mono_policies
      unfold scheduleStep
      split_ifs with h
      · exact h
      · rw [reminderExists_append]
        have : reminderExists [mkReminder p d now] p.id d = true := by
          simp [reminderExists, mkReminder]
        rw [this, Bool.or_true]
    · unfold createForPolicies
      exact ih _ p hmem2

/-- After one scheduler run, every `(window, matching policy)` pair has a
reminder row. -/
theorem createForWindows_covers (today now : Int) (ps : List Policy) :
    ∀ (ws : List Nat) (acc : List Reminder × Nat) (d : Nat) (p : Policy),
      d ∈ ws → p ∈ ps → policyMatchesWindow today d p = true →
      reminderExists (createForWindows today now ps ws acc).1 p.id d = true := by
  intro ws
  induction ws with
  | nil => intro acc d p h; simp at h
  | cons w wsr ih =>
    intro acc d p hd hp hm
    rcases List.mem_cons.mp hd with rfl | hd2
    · unfold createForWindows
      apply reminderExists_mono_windows
      exact createForPolicies_covers now d _ acc p (List.mem_filter.mpr ⟨hp, hm⟩)
    · unfold createForWindows
      exact ih _ d p hd2 hp hm

/-- When every processed policy already has its reminder, the inner loop is
the identity. -/
theorem createForPolicies_noop (now : Int) (d : Nat) :
    ∀ (l : List Policy) (acc : List Reminder × Nat),
      (∀ p ∈ l, reminderExists acc.1 p.id d = true) →
      createForPolicies now d l acc = acc := by
  intro l
  induction l with
  | nil => intro acc _; rfl
  | cons q qs ih =>
    intro acc hall
    unfold createForPolicies
    have hstep : scheduleStep now d acc q = acc := by
      unfold scheduleStep
      rw [hall q (List.mem_cons_self q qs)]
      rfl
    rw [hstep]
    exact ih acc fun p hp => hall p (List.mem_cons_of_mem _ hp)

/-- When every matching policy already has its reminder for every window,
the whole scheduler run is the identity. -/
theorem createForWindows_noop (today now : Int) (ps : List Policy) :
    ∀ (ws : List Nat) (acc : List Reminder × Nat),
      (∀ d ∈ ws, ∀ p ∈ ps, policyMatchesWindow today d p = true →
        reminderExists acc.1 p.id d = true) →
      createForWindows today now ps ws acc = acc := by
  intro ws
  induction ws with
  | nil => intro acc _; rfl
  | cons w wsr ih =>
    intro acc hall
    unfold createForWindows
    rw [createForPolicies_noop now w _ acc fun p hp =>
      hall w (List.mem_cons_self w wsr) p (List.mem_filter.mp hp).1
        (List.mem_filter.mp hp).2]
    exact ih acc fun d hd p hp hm => hall d (List.mem_cons_of_mem _ hd) p hp hm

/-- `pairCount` distributes over list append. -/
theorem pairCount_append (xs ys : List Reminder) (pid d : Nat) :
    pairCount (xs ++ ys) pid d = pairCount xs pid d + pairCount ys pid d := by
  simp [pairCount, List.countP_append]

/-- A pair is absent exactly when its row count is zero. -/
theorem reminderExists_eq_false_iff (rs : List Reminder) (pid d : Nat) :
    reminderExists rs pid d = false ↔ pairCount rs pid d = 0 := by
  simp [reminderExists, pairCount, List.any_eq_false, List.countP_eq_zero]

/-- The pair count of a freshly created reminder row. -/
theorem pairCount_mkReminder_singleton (q : Policy) (dw : Nat) (now : Int)
    (pid d : Nat) :
    pairCount [mkReminder q dw now] pid d =
      if q.id = pid ∧ dw = d then 1 else 0 := by
  by_cases h1 : q.id = pid
  · by_cases h2 : dw = d
    · simp [pairCount, mkReminder, h1, h2]
    · simp [pairCount, mkReminder, h1, h2]
  · simp [pairCount, mkReminder, h1]

/-- The inner loop never adds a row for a pair that already exists. -/
theorem createForPolicies_pairCount (now : Int) (dw : Nat) (pid d : Nat) :
    ∀ (l : List Policy) (acc : List Reminder × Nat),
      reminderExists acc.1 pid d = true →
      pairCount (createForPolicies now dw l acc).1 pid d = pairCount acc.1 pid d := by
  intro l
  induction l with
  | nil => intro acc _; rfl
  | cons q qs ih =>
    intro acc hex
    unfold createForPolicies scheduleStep
    split_ifs with h
    · exact ih acc hex
    · have hex2 : reminderExists (acc.1 ++ [mkReminder q dw now]) pid d = true := by
        rw [reminderExists_append, hex, Bool.true_or]
      have hsingle : pairCount [mkReminder q dw now] pid d = 0 := by
        rw [pairCount_mkReminder_singleton]
        rcases Nat.decEq q.id pid with h1 | h1
        · simp [h1]
        · rcases Nat.decEq dw d with h2 | h2
          · simp [h2]
          · exfalso
            subst h1; subst h2
            rw [hex] at h
            exact h rfl
      have := ih (acc.1 ++ [mkReminder q dw now], acc.2 + 1) hex2
      rw [this]
      rw [show ((acc.1 ++ [mkReminder q dw now], acc.2 + 1) :
        List Reminder × Nat).1 = acc.1 ++ [mkReminder q dw now] from rfl]
      rw [pairCount_append, hsingle]
      omega

/-- The outer loop never adds a row for a pair that already exists. -/
theorem createForWindows_pairCount (today now : Int) (ps : List Policy)
    (pid d : Nat) :
    ∀ (ws : List Nat) (acc : List Reminder × Nat),
      reminderExists acc.1 pid d = true →
      pairCount (createForWindows today now ps ws acc).1 pid d = pairCount acc.1 pid d := by
  intro ws
  induction ws with
  | nil => intro acc _; rfl
  | cons w wsr ih =>
    intro acc hex
    unfold createForWindows
    rw [ih _ (reminderExists_mono_policies now w _ acc pid d hex),
      createForPolicies_pairCount now w pid d _ acc hex]

/-- The inner loop preserves the at-most-one-per-pair invariant. -/
theorem createForPolicies_amop (now : Int) (d : Nat) :
    ∀ (l : List Policy) (acc : List Reminder × Nat),
      atMostOnePerPair acc.1 → atMostOnePerPair (createForPolicies now d l acc).1 := by
  intro l
  induction l with
  | nil => intro acc h; exact h
  | cons q qs ih =>
    intro acc hA
    unfold createForPolicies
    apply ih
    unfold scheduleStep
    split_ifs with h
    · exact hA
    · intro pid e
      rw [pairCount_append, pairCount_mkReminder_singleton]
      split_ifs with hq
      · obtain ⟨rfl, rfl⟩ := hq
        have hb : reminderExists acc.1 q.id d = false := by
          revert h
          cases reminderExists acc.1 q.id d <;> simp
        have h0 : pairCount acc.1 q.id d = 0 :=
          (reminderExists_eq_false_iff _ _ _).mp hb
        omega
      · have := hA pid e
        omega

/-- The outer loop preserves the at-most-one-per-pair invariant. -/
theorem createForWindows_amop (today now : Int) (ps : List Policy) :
    ∀ (ws : List Nat) (acc : List Reminder × Nat),
      atMostOnePerPair acc.1 → atMostOnePerPair (createForWindows today now ps ws acc).1 := by
  intro ws
  induction ws with
  | nil => intro acc h; exact h
  | cons w wsr ih =>
    intro acc hA
    unfold createForWindows
    exact ih _ (createForPolicies_amop now w _ acc hA)

/-- A failed send outcome increments `retry_count` and reverts the reminder
to pending below the retry ceiling, leaving it failed at the ceiling. -/
theorem applyOutcome_failure (now : Int) (r : Reminder) (o : Outcome)
    (h : isSuccess o = false) :
    (applyOutcome now r o).retry_count = r.retry_count + 1 ∧
    (r.retry_count + 1 < 3 → (applyOutcome now r o).status = .pending) ∧
    (¬ r.retry_count + 1 < 3 → (applyOutcome now r o).status = .failed) := by
  have h1 : (o.status == "sent") = false := by
    cases hs : (o.status == "sent") <;> simp_all [isSuccess]
  have h2 : (o.status == "skipped") = false := by
    cases hs : (o.status == "skipped") <;> simp_all [isSuccess]
  simp only [applyOutcome, h1, h2, Bool.false_eq_true, if_false]
  split_ifs with hlt <;> simp_all

/-- A `sent` outcome marks the reminder sent and leaves `retry_count`
untouched. -/
theorem applyOutcome_sent (now : Int) (r : Reminder) (o : Outcome)
    (h : o.status = "sent") :
    (applyOutcome now r o).status = .sent ∧
    (applyOutcome now r o).retry_count = r.retry_count := by
  simp [applyOutcome, h]

/-- A failed reminder is excluded by the pending-only selection query. -/
theorem failed_not_selected (now : Int) (rs : List Reminder) (r : Reminder)
    (h : r.status = .failed) : r ∉ selectedReminders now rs := by
  intro hmem
  have h2 : r ∈ rs.filter (isDue now) := List.take_subset 100 _ hmem
  have h3 := (List.mem_filter.mp h2).2
  simp [isDue, h] at h3

/-- Committing a batch leaves every non-due row in place. -/
theorem mem_commitUpdates_of_not_due (now : Int) :
    ∀ (rs upds : List Reminder) (r : Reminder), r ∈ rs → isDue now r = false →
      r ∈ commitUpdates now rs upds := by
  intro rs
  induction rs with
  | nil => intro upds r h; simp at h
  | cons a rest ih =>
    intro upds r hmem hdue
    rcases List.mem_cons.mp hmem with rfl | hr
    · unfold commitUpdates
      split_ifs with hd
      · rw [hd] at hdue; exact absurd hdue (by simp)
      · exact List.mem_cons_self _ _
    · unfold commitUpdates
      split_ifs with hd
      · cases upds with
        | nil => exact List.mem_cons_of_mem _ (ih [] r hr hdue)
        | cons u us => exact List.mem_cons_of_mem _ (ih us r hr hdue)
      · exact List.mem_cons_of_mem _ (ih upds r hr hdue)

/-- A failed reminder row survives any dispatcher run untouched. -/
theorem failed_persists (now : Int) (send : Reminder → Except String Outcome)
    (rs : List Reminder) (r : Reminder) (h : r.status = .failed) (hmem : r ∈ rs) :
    r ∈ (send_pending_reminders now send rs).1 := by
  unfold send_pending_reminders
  cases hp : processSelected now send (selectedReminders now rs) with
  | error e => simpa using hmem
  | ok v =>
    obtain ⟨upds, s, f⟩ := v
    exact mem_commitUpdates_of_not_due now rs upds r hmem (by simp [isDue, h])

/-- When some selected reminder's send raises, the dispatcher loop raises. -/
theorem processSelected_error_of_exists (now : Int)
    (send : Reminder → Except String Outcome) :
    ∀ l : List Reminder, (∃ r ∈ l, ∃ e, send r = .error e) →
      ∃ e, processSelected now send l = .error e := by
  intro l
  induction l with
  | nil => rintro ⟨r, hr, _⟩; simp at hr
  | cons a rest ih =>
    rintro ⟨r, hr, e, he⟩
    rcases List.mem_cons.mp hr with rfl | hmem
    · exact ⟨e, by simp [processSelected, he, Bind.bind, Except.bind]⟩
    · cases ha : send a with
      | error e' => exact ⟨e', by simp [processSelected, ha, Bind.bind, Except.bind]⟩
      | ok o =>
        obtain ⟨e', he'⟩ := ih ⟨r, hmem, e, he⟩
        exact ⟨e', by simp [processSelected, ha, he', Bind.bind, Except.bind]⟩

/-- When every send returns an outcome, the loop processes the entire batch:
the updated rows are exactly the outcome-applied selected rows, and each
selected reminder is counted once as sent or failed. -/
theorem processSelected_allok_counts (now : Int) (o : Reminder → Outcome) :
    ∀ l : List Reminder, ∃ upds s f,
      processSelected now (fun r => .ok (o r)) l = .ok (upds, s, f) ∧
      upds = l.map (fun r => applyOutcome now r (o r)) ∧ s + f = l.length := by
  intro l
  induction l with
  | nil => exact ⟨[], 0, 0, by simp [processSelected]⟩
  | cons a rest ih =>
    obtain ⟨upds, s, f, hp, hu, hsf⟩ := ih
    by_cases hs : isSuccess (o a) = true
    · exact ⟨applyOutcome now a (o a) :: upds, s + 1, f,
        by simp [processSelected, hp, hs, Bind.bind, Except.bind],
        by simp [hu], by simp [List.length_cons]; omega⟩
    · exact ⟨applyOutcome now a (o a) :: upds, s, f + 1,
        by simp [processSelected, hp, hs, Bind.bind, Except.bind],
        by simp [hu], by simp [List.length_cons]; omega⟩

/-- Each lifecycle pass performs only the two documented transitions. -/
theorem updatePolicyStatus_transitions (today : Int) (p : Policy) :
    (updatePolicyStatus today p).status = p.status ∨
    (p.status = .active ∧ (updatePolicyStatus today p).status = .pending_renewal ∧
      today ≤ p.renewal_date ∧ p.renewal_date ≤ today + 30) ∨
    ((p.status = .active ∨ p.status = .pending_renewal) ∧
      (updatePolicyStatus today p).status = .lapsed ∧ p.renewal_date < today) := by
  obtain ⟨i, c, rd, st⟩ := p
  cases st <;> simp [updatePolicyStatus] <;> split_ifs <;> simp_all

/-- The lifecycle update of a single policy is idempotent for a fixed
`today`. -/
theorem updatePolicyStatus_idem (today : Int) (p : Policy) :
    updatePolicyStatus today (updatePolicyStatus today p) = updatePolicyStatus today p := by
  obtain ⟨i, c, rd, st⟩ := p
  cases st <;> simp [updatePolicyStatus] <;> split_ifs <;> simp_all

/-! ## Claim theorems -/

/-- C1: scheduling is idempotent.  For every configured window set and store:
an existing `(policy_id, reminder_type)` pair gains no further rows from a
run; a second run on the same calendar day is a no-op creating 0 reminders;
and a run preserves the at-most-one-reminder-per-pair invariant, so two
successive same-day runs leave at most one reminder per pair. -/
theorem scheduler_idempotent_no_duplicates (windows : List Nat)
    (today now1 now2 : Int) (db : DB) :
    (∀ pid d, reminderExists db.reminders pid d = true →
      pairCount (check_and_create_reminders windows today now1 db).1.reminders pid d =
        pairCount db.reminders pid d) ∧
    check_and_create_reminders windows today now2
        (check_and_create_reminders windows today now1 db).1 =
      ((check_and_create_reminders windows today now1 db).1, 0) ∧
    (atMostOnePerPair db.reminders →
      atMostOnePerPair (check_and_create_reminders windows today now1 db).1.reminders) := by
  have hrem : (check_and_create_reminders windows today now1 db).1.reminders =
      (createForWindows today now1 db.policies windows (db.reminders, 0)).1 := rfl
  have hpol : (check_and_create_reminders windows today now1 db).1.policies =
      db.policies := rfl
  refine ⟨?_, ?_, ?_⟩
  · intro pid d hex
    rw [hrem]
    exact createForWindows_pairCount today now1 db.policies pid d windows _ hex
  · have hcov2 : ∀ d ∈ windows,
        ∀ p ∈ (check_and_create_reminders windows today now1 db).1.policies,
        policyMatchesWindow today d p = true →
        reminderExists
          (((check_and_create_reminders windows today now1 db).1.reminders,
            (0 : Nat)) : List Reminder × Nat).1 p.id d = true := by
      intro d hd p hp hm
      rw [hpol] at hp
      show reminderExists (check_and_create_reminders windows today now1 db).1.reminders p.id d = true
      rw [hrem]
      exact createForWindows_covers today now1 db.policies windows _ d p hd hp hm
    have hno : createForWindows today now2
        (check_and_create_reminders windows today now1 db).1.policies windows
        ((check_and_create_reminders windows today now1 db).1.reminders, 0) =
        ((check_and_create_reminders windows today now1 db).1.reminders, 0) :=
      createForWindows_noop today now2 _ windows _ hcov2
    show ({ (check_and_create_reminders windows today now1 db).1 with
        reminders := (createForWindows today now2
          (check_and_create_reminders windows today now1 db).1.policies windows
          ((check_and_create_reminders windows today now1 db).1.reminders, 0)).1 },
      (createForWindows today now2
        (check_and_create_reminders windows today now1 db).1.policies windows
        ((check_and_create_reminders windows today now1 db).1.reminders, 0)).2) =
      ((check_and_create_reminders windows today now1 db).1, 0)
    rw [hno]
  · intro hA
    rw [hrem]
    exact createForWindows_amop today now1 db.policies windows _ hA

/-- C1 witness: the idempotency theorem evaluated on a concrete store with
one active policy and its existing window-30 reminder. -/
theorem scheduler_idempotent_no_duplicates_witness :
    pairCount (check_and_create_reminders [30, 15, 7, 1] 0 5 dbW).1.reminders 1 30 =
      pairCount dbW.reminders 1 30 ∧
    check_and_create_reminders [30, 15, 7, 1] 0 6
        (check_and_create_reminders [30, 15, 7, 1] 0 5 dbW).1 =
      ((check_and_create_reminders [30, 15, 7, 1] 0 5 dbW).1, 0) ∧
    atMostOnePerPair (check_and_create_reminders [30, 15, 7, 1] 0 5 dbW).1.reminders := by
  obtain ⟨h1, h2, h3⟩ := scheduler_idempotent_no_duplicates [30, 15, 7, 1] 0 5 6 dbW
  exact ⟨h1 1 30 (by decide), h2,
    h3 fun pid d => (List.countP_le_length _).trans (by decide)⟩

/-- C2: the dispatcher's retry policy.  A failed outcome increments
`retry_count` and reverts the reminder to pending while the new count is
below 3; three consecutive failures starting from `retry_count = 0` end in
`status = failed` with `retry_count = 3`; a failed reminder is never again
selected by the pending-only query and survives any later run unchanged; a
`sent` outcome sets `status = sent` without resetting `retry_count`. -/
theorem dispatcher_retry_policy (now : Int) :
    (∀ (r : Reminder) (o : Outcome), isSuccess o = false →
        (applyOutcome now r o).retry_count = r.retry_count + 1 ∧
        (r.retry_count + 1 < 3 → (applyOutcome now r o).status = .pending)) ∧
    (∀ (r : Reminder) (o1 o2 o3 : Outcome) (n1 n2 n3 : Int),
        r.retry_count = 0 → isSuccess o1 = false → isSuccess o2 = false →
        isSuccess o3 = false →
        (applyOutcome n3 (applyOutcome n2 (applyOutcome n1 r o1) o2) o3).status = .failed ∧
        (applyOutcome n3 (applyOutcome n2 (applyOutcome n1 r o1) o2) o3).retry_count = 3) ∧
    (∀ (rs : List Reminder) (r : Reminder), r.status = .failed →
        r ∉ selectedReminders now rs) ∧
    (∀ (send : Reminder → Except String Outcome) (rs : List Reminder) (r : Reminder),
        r.status = .failed → r ∈ rs → r ∈ (send_pending_reminders now send rs).1) ∧
    (∀ (r : Reminder) (o : Outcome), o.status = "sent" →
        (applyOutcome now r o).status = .sent ∧
        (applyOutcome now r o).retry_count = r.retry_count) := by
  refine ⟨?_, ?_, fun rs r h => failed_not_selected now rs r h,
    fun send rs r h hmem => failed_persists now send rs r h hmem,
    fun r o h => applyOutcome_sent now r o h⟩
  · intro r o h
    obtain ⟨h1, h2, h3⟩ := applyOutcome_failure now r o h
    exact ⟨h1, h2⟩
  · intro r o1 o2 o3 n1 n2 n3 h0 h1 h2 h3
    obtain ⟨a1, b1, c1⟩ := applyOutcome_failure n1 r o1 h1
    obtain ⟨a2, b2, c2⟩ := applyOutcome_failure n2 (applyOutcome n1 r o1) o2 h2
    obtain ⟨a3, b3, c3⟩ :=
      applyOutcome_failure n3 (applyOutcome n2 (applyOutcome n1 r o1) o2) o3 h3
    rw [a1, h0] at a2
    rw [a2] at a3
    refine ⟨c3 ?_, by omega⟩
    omega

/-- C2 witness: the retry-policy theorem evaluated on a fresh reminder, the
`failed` timeout outcome, the exhausted row, and the `sent` outcome. -/
theorem dispatcher_retry_policy_witness :
    ((applyOutcome 0 rRetry0 failOutcome).retry_count = rRetry0.retry_count + 1 ∧
      (applyOutcome 0 rRetry0 failOutcome).status = .pending) ∧
    ((applyOutcome 2 (applyOutcome 1 (applyOutcome 0 rRetry0 failOutcome)
        failOutcome) failOutcome).status = .failed ∧
      (applyOutcome 2 (applyOutcome 1 (applyOutcome 0 rRetry0 failOutcome)
        failOutcome) failOutcome).retry_count = 3) ∧
    rFailedRow ∉ selectedReminders 0 [rFailedRow] ∧
    rFailedRow ∈ (send_pending_reminders 0 (fun _ => .ok okOutcome) [rFailedRow]).1 ∧
    ((applyOutcome 0 rRetry0 okOutcome).status = .sent ∧
      (applyOutcome 0 rRetry0 okOutcome).retry_count = rRetry0.retry_count) := by
  obtain ⟨h1, h2, h3, h4, h5⟩ := dispatcher_retry_policy 0
  refine ⟨?_,
    h2 rRetry0 failOutcome failOutcome failOutcome 0 1 2 (by decide) (by decide)
      (by decide) (by decide),
    h3 [rFailedRow] rFailedRow (by decide),
    h4 (fun _ => .ok okOutcome) [rFailedRow] rFailedRow (by decide) (by decide),
    h5 rRetry0 okOutcome (by decide)⟩
  obtain ⟨ha, hb⟩ := h1 rRetry0 failOutcome (by decide)
  exact ⟨ha, hb (by decide)⟩

/-- C3: exact-window matching.  A policy is selected by window `d` of
`{30, 15, 7, 1}` exactly when it is active and `renewal_date = today + d`;
an active policy with `renewal_date = today + 29` is selected by no window;
one with `renewal_date = today + 30` is selected exactly by window 30, and
a run over a store containing just that policy creates exactly one
reminder. -/
theorem exact_window_matching (today now : Int) (p : Policy) :
    (∀ d : Nat, d ∈ selectedWindows [30, 15, 7, 1] today p ↔
       d ∈ ([30, 15, 7, 1] : List Nat) ∧ p.status = .active ∧
         p.renewal_date = today + (d : Int)) ∧
    (p.renewal_date = today + 29 → selectedWindows [30, 15, 7, 1] today p = []) ∧
    (p.status = .active → p.renewal_date = today + 30 →
       selectedWindows [30, 15, 7, 1] today p = [30] ∧
       (check_and_create_reminders [30, 15, 7, 1] today now ⟨[p], []⟩).2 = 1) := by
  refine ⟨?_, ?_, ?_⟩
  · intro d
    simp only [selectedWindows, List.mem_filter, policyMatchesWindow,
      Bool.and_eq_true, beq_iff_eq]
    tauto
  · intro h29
    apply List.filter_eq_nil_iff.mpr
    intro d hd
    fin_cases hd <;> simp [policyMatchesWindow, h29]
  · intro hact h30
    have hm30 : policyMatchesWindow today 30 p = true := by
      simp [policyMatchesWindow, h30, hact]
    have hm15 : policyMatchesWindow today 15 p = false := by
      simp only [policyMatchesWindow, Bool.and_eq_false_iff, beq_eq_false_iff_ne, ne_eq]
      left
      rw [h30]
      push_cast
      omega
    have hm7 : policyMatchesWindow today 7 p = false := by
      simp only [policyMatchesWindow, Bool.and_eq_false_iff, beq_eq_false_iff_ne, ne_eq]
      left
      rw [h30]
      push_cast
      omega
    have hm1 : policyMatchesWindow today 1 p = false := by
      simp only [policyMatchesWindow, Bool.and_eq_false_iff, beq_eq_false_iff_ne, ne_eq]
      left
      rw [h30]
      push_cast
      omega
    constructor
    · simp [selectedWindows, List.filter_cons, hm30, hm15, hm7, hm1]
    · simp [check_and_create_reminders, createForWindows, createForPolicies,
        scheduleStep, reminderExists, List.filter_cons, hm30, hm15, hm7, hm1]

/-- C3 witness: the window-matching theorem evaluated at `today = 100` on
policies renewing at day 129 and day 130. -/
theorem exact_window_matching_witness :
    selectedWindows [30, 15, 7, 1] 100 p29W = [] ∧
    selectedWindows [30, 15, 7, 1] 100 p30W = [30] ∧
    (check_and_create_reminders [30, 15, 7, 1] 100 0 ⟨[p30W], []⟩).2 = 1 := by
  refine ⟨(exact_window_matching 100 0 p29W).2.1 (by decide), ?_, ?_⟩
  · exact ((exact_window_matching 100 0 p30W).2.2 (by decide) (by decide)).1
  · exact ((exact_window_matching 100 0 p30W).2.2 (by decide) (by decide)).2

/-- C4: the policy lifecycle update performs only the forward transitions
active→pending_renewal (when `today ≤ renewal_date ≤ today + 30`) and
active/pending_renewal→lapsed (when `renewal_date < today`), and applying
it twice with the same `today` equals applying it once. -/
theorem lifecycle_monotone_idempotent (today : Int) :
    (∀ p : Policy,
      (updatePolicyStatus today p).status = p.status ∨
      (p.status = .active ∧ (updatePolicyStatus today p).status = .pending_renewal ∧
        today ≤ p.renewal_date ∧ p.renewal_date ≤ today + 30) ∨
      ((p.status = .active ∨ p.status = .pending_renewal) ∧
        (updatePolicyStatus today p).status = .lapsed ∧ p.renewal_date < today)) ∧
    (∀ ps : List Policy,
      update_policy_statuses today (update_policy_statuses today ps) =
        update_policy_statuses today ps) := by
  refine ⟨updatePolicyStatus_transitions today, fun ps => ?_⟩
  unfold update_policy_statuses
  rw [List.map_map]
  have h : (updatePolicyStatus today) ∘ (updatePolicyStatus today) =
      updatePolicyStatus today :=
    funext fun p => updatePolicyStatus_idem today p
  rw [h]

/-- C5 counterexample: in a batch of two due pending reminders where the
first send raises an exception and the second would succeed, the run leaves
the store unchanged — the second reminder is neither processed nor has its
update recorded, refuting per-item isolation of exceptions. -/
theorem dispatcher_exception_not_isolated_cex :
    isDue 20 rSched5 = true ∧ cexSend rSched5 = .ok okOutcome ∧
    (send_pending_reminders 20 cexSend [rSched10, rSched5]).1 = [rSched10, rSched5] ∧
    rSched5.status = .pending := by
  refine ⟨by decide, rfl, ?_, by decide⟩
  rfl

/-- C5 amended: an exception raised while processing one selected reminder
aborts the whole invocation — the transaction is rolled back and no update
from the batch is recorded; isolation holds only for failures reported as
`failed` outcomes, for which the whole batch is still processed, each
selected reminder counted exactly once as sent or failed. -/
theorem dispatcher_exception_aborts_batch (now : Int)
    (send : Reminder → Except String Outcome) (o : Reminder → Outcome)
    (rs : List Reminder) :
    ((∃ r ∈ selectedReminders now rs, ∃ e, send r = .error e) →
      send_pending_reminders now send rs = (rs, 0, 0)) ∧
    ((send_pending_reminders now (fun r => .ok (o r)) rs).2.1 +
        (send_pending_reminders now (fun r => .ok (o r)) rs).2.2 =
        (selectedReminders now rs).length ∧
      (send_pending_reminders now (fun r => .ok (o r)) rs).1 =
        commitUpdates now rs
          ((selectedReminders now rs).map fun r => applyOutcome now r (o r))) := by
  constructor
  · intro hex
    obtain ⟨e, he⟩ := processSelected_error_of_exists now send _ hex
    simp [send_pending_reminders, he]
  · obtain ⟨upds, s, f, hp, hu, hsf⟩ :=
      processSelected_allok_counts now o (selectedReminders now rs)
    simp [send_pending_reminders, hp, hu, hsf]

/-- C5 amended witness: the abort-on-exception behaviour on the concrete
two-reminder batch, and the full-batch processing count when every send
returns an outcome. -/
theorem dispatcher_exception_aborts_batch_witness :
    send_pending_reminders 20 cexSend [rSched10, rSched5] =
      ([rSched10, rSched5], 0, 0) ∧
    (send_pending_reminders 20 (fun _ => .ok okOutcome) [rSched10, rSched5]).2.1 +
      (send_pending_reminders 20 (fun _ => .ok okOutcome) [rSched10, rSched5]).2.2 =
      (selectedReminders 20 [rSched10, rSched5]).length := by
  obtain ⟨h1, h2⟩ :=
    dispatcher_exception_aborts_batch 20 cexSend (fun _ => okOutcome) [rSched10, rSched5]
  exact ⟨h1 ⟨rSched10, by decide, "boom", rfl⟩, h2.1⟩

/-- C6 counterexample: with store order `[rSched10, rSched5]` the dispatcher
selects and processes both due reminders in that order, whose
`scheduled_date` sequence `[10, 5]` is not ascending — the selection query
has no `ORDER BY`, so oldest-due-first processing is not guaranteed. -/
theorem dispatcher_order_not_sorted_cex :
    selectedReminders 20 [rSched10, rSched5] = [rSched10, rSched5] ∧
    ¬ List.Sorted (· ≤ ·)
        (List.map (fun r => r.scheduled_date) (selectedReminders 20 [rSched10, rSched5])) := by
  constructor
  · decide
  · decide

/-- C6 amended: within one run the dispatcher processes the selected
reminders in the order the store returns them — a sublist of the reminder
table preserving its relative order, containing only due pending rows — and
applies no sorting by `scheduled_date`. -/
theorem dispatcher_processes_in_store_order (now : Int) (rs : List Reminder) :
    (selectedReminders now rs).Sublist rs ∧
    ∀ r ∈ selectedReminders now rs, r.status = .pending ∧ r.scheduled_date ≤ now := by
  constructor
  · exact (List.take_sublist _ _).trans (List.filter_sublist rs)
  · intro r hr
    have h2 : r ∈ rs.filter (isDue now) := List.take_subset 100 _ hr
    have h3 := (List.mem_filter.mp h2).2
    simp [isDue] at h3
    exact h3

/-- C6 amended witness: the store-order theorem evaluated on the concrete
two-reminder store. -/
theorem dispatcher_processes_in_store_order_witness :
    (selectedReminders 20 [rSched10, rSched5]).Sublist [rSched10, rSched5] ∧
    (rSched10.status = .pending ∧ rSched10.scheduled_date ≤ 20) := by
  obtain ⟨h1, h2⟩ := dispatcher_processes_in_store_order 20 [rSched10, rSched5]
  exact ⟨h1, h2 rSched10 (by decide)⟩

/-- C7: the recomputed engagement score equals the spec's formula — base 50,
plus `min(2·interactions, 20)`, plus `min(5·renewals, 15)`, plus 15 for zero
lapsed policies and otherwise minus `min(10·lapsed, 30)`, clamped to
[0, 100] — and always lies in [0, 100]. -/
theorem engagement_score_formula_and_bounds (i r l : Nat) :
    engagementScore i r l = engagementScoreSpec i r l ∧
    0 ≤ engagementScore i r l ∧ engagementScore i r l ≤ 100 := by
  unfold engagementScore engagementScoreSpec engagementScoreRaw
  refine ⟨?_, le_max_left _ _, max_le (by norm_num) (min_le_left _ _)⟩
  by_cases hl : l = 0 <;> simp [hl, mul_comm, sub_eq_add_neg]

/-- C10: the pre-clamp score is at least 20 for every input, so the lower
clamp at 0 is never active and the stored score lies in [20, 100]. -/
theorem engagement_score_tight_lower_bound (i r l : Nat) :
    20 ≤ engagementScoreRaw i r l ∧
    engagementScore i r l = min 100 (engagementScoreRaw i r l) ∧
    20 ≤ engagementScore i r l ∧ engagementScore i r l ≤ 100 := by
  have hraw : 20 ≤ engagementScoreRaw i r l := by
    unfold engagementScoreRaw
    by_cases hl : l = 0 <;> simp [hl] <;> omega
  refine ⟨hraw, ?_, ?_, max_le (by norm_num) (min_le_left _ _)⟩
  · unfold engagementScore
    omega
  · unfold engagementScore
    omega

/-- C8: the retention cool-down.  For an eligible pending-renewal policy, a
retention log entry for the same `(customer, policy)` with `sent_at` within
the last 3 days (`now - 3 ≤ sent_at`, e.g. one sent 1 day ago) makes the
job skip the policy (no new log row, nothing sent), while if every matching
entry is older than 3 days the job sends and appends exactly one retention
log row. -/
theorem retention_cooldown (today now : Int) (send : Policy → Outcome)
    (p : Policy) (logs : List OutreachEntry)
    (helig : retentionEligible today p = true) :
    ((∃ l ∈ logs, l.customer_id = p.customer.id ∧ l.policy_id = p.id ∧
        l.outreach_type = .retention ∧ now - 3 ≤ l.sent_at) →
      process_retention_outreach today now send [p] logs = (logs, 0)) ∧
    ((∀ l ∈ logs, l.customer_id = p.customer.id → l.policy_id = p.id →
        l.outreach_type = .retention → l.sent_at < now - 3) →
      process_retention_outreach today now send [p] logs =
        (logs ++ [mkRetentionLog p now], if isSuccess (send p) then 1 else 0)) := by
  have hfilter : [p].filter (retentionEligible today) = [p] := by
    simp [helig]
  constructor
  · rintro ⟨l, hl, hc, hp, ht, hs⟩
    have hrecent : hasRecentRetention now logs p.customer.id p.id = true := by
      simp only [hasRecentRetention, List.any_eq_true]
      refine ⟨l, hl, ?_⟩
      simp [hc, hp, ht]
      omega
    simp [process_retention_outreach, hfilter, retentionLoop, hrecent]
  · intro hall
    have hrecent : hasRecentRetention now logs p.customer.id p.id = false := by
      simp only [hasRecentRetention, List.any_eq_false]
      intro l hl
      simp only [Bool.and_eq_true, beq_iff_eq, decide_eq_true_eq, not_and]
      intro h1 h2
      obtain ⟨⟨hc, hp2⟩, ht⟩ := h1
      have := hall l hl hc hp2 ht
      omega
    simp [process_retention_outreach, hfilter, retentionLoop, hrecent]

/-- C8 witness: the cool-down theorem evaluated at `today = 100`,
`now = 200` on the concrete pending-renewal policy, with an entry sent 1
day ago (skipped) and one sent 4 days ago (contacted). -/
theorem retention_cooldown_witness :
    process_retention_outreach 100 200 (fun _ => okOutcome) [pRetention] [logRecent] =
      ([logRecent], 0) ∧
    process_retention_outreach 100 200 (fun _ => okOutcome) [pRetention] [logOld] =
      ([logOld] ++ [mkRetentionLog pRetention 200], 1) := by
  constructor
  · exact (retention_cooldown 100 200 (fun _ => okOutcome) pRetention [logRecent]
      (by decide)).1 ⟨logRecent, by decide, by decide, by decide, by decide, by decide⟩
  · have h := (retention_cooldown 100 200 (fun _ => okOutcome) pRetention [logOld]
      (by decide)).2 (by decide)
    rw [h]
    decide

/-- C9: the channel gateway is total over channel names — for any channel
other than `email`, `sms` and `whatsapp` it returns (does not raise) a
`failed` outcome whose error names the unknown channel, and invokes no
provider service. -/
theorem gateway_unknown_channel_total (channel : String)
    (invoke : String → Outcome) (cd : CustomerData) (pd : PolicyData)
    (h1 : channel ≠ "email") (h2 : channel ≠ "sms") (h3 : channel ≠ "whatsapp") :
    gateway_send_reminder invoke channel cd pd =
      .ok ({ status := "failed", message_id := none, message_sid := none,
             error := some ("Unknown channel: " ++ channel) }, []) := by
  simp [gateway_send_reminder, h1, h2, h3]

/-- C9 witness: the totality theorem evaluated on the unknown channel
`carrier-pigeon` with fully populated dicts. -/
theorem gateway_unknown_channel_total_witness :
    gateway_send_reminder (fun _ => okOutcome) "carrier-pigeon" cdW pdW =
      .ok ({ status := "failed", message_id := none, message_sid := none,
             error := some ("Unknown channel: " ++ "carrier-pigeon") }, []) :=
  gateway_unknown_channel_total "carrier-pigeon" (fun _ => okOutcome) cdW pdW
    (by decide) (by decide) (by decide)

end RenewalReminder
